import Mathlib

/-!
Verification of the VectorStore core of the AnonSkill repository
(`src/connections/vectordb_connection.py`).

The store pairs an hnswlib ANN index with a Python dict `self.metadata`
mapping integer ids to metadata dicts.  Python dicts are embedded as
association lists with Python semantics: insertion of an existing key
replaces its value in place, insertion of a fresh key appends, `del`
removes the key, `d.update(u)` performs a shallow key-wise overwrite,
and `len` counts entries.  Python scalar values appearing in metadata,
filters and results are embedded as an inductive `Value` type; floats
are modelled as rationals.
-/

namespace AnonSkill

instance {ε α : Type} [DecidableEq ε] [DecidableEq α] :
    DecidableEq (Except ε α) := fun x y =>
  match x, y with
  | Except.ok a, Except.ok b =>
      if h : a = b then isTrue (by rw [h])
      else isFalse (fun hh => h (by injection hh))
  | Except.error a, Except.error b =>
      if h : a = b then isTrue (by rw [h])
      else isFalse (fun hh => h (by injection hh))
  | Except.ok _, Except.error _ => isFalse (fun hh => Except.noConfusion hh)
  | Except.error _, Except.ok _ => isFalse (fun hh => Except.noConfusion hh)

/-- Python scalar values stored in metadata dicts, filter dicts and
search results.  `int` covers the ids written by `search`/`get_item`,
`rat` covers the similarity floats (modelled as rationals). -/
inductive Value where
  | str : String → Value
  | int : Int → Value
  | rat : Rat → Value
deriving DecidableEq

/-- A Python dict embedded as an association list (insertion-ordered,
keys unique in every dict actually built by the code). -/
abbrev PyDict (K V : Type) := List (K × V)

namespace PyDict

variable {K V : Type} [DecidableEq K]

/-- Python `d[k]` as an option: the first entry whose key is `k`. -/
def lookup : PyDict K V → K → Option V
  | [], _ => none
  | kv :: rest, k => if k = kv.1 then some kv.2 else lookup rest k

/-- Python `k in d`. -/
def mem (d : PyDict K V) (k : K) : Bool :=
  (lookup d k).isSome

/-- Python `d[k] = v`: replace the value in place when the key is
present, append a new entry otherwise. -/
def insert (d : PyDict K V) (k : K) (v : V) : PyDict K V :=
  if mem d k then d.map (fun kv => if kv.1 = k then (k, v) else kv)
  else d ++ [(k, v)]

/-- Python `del d[k]` (total here; the code always guards it with a
membership test). -/
def erase : PyDict K V → K → PyDict K V
  | [], _ => []
  | kv :: rest, k => if kv.1 = k then erase rest k else kv :: erase rest k

/-- Python `len(d)`. -/
def size (d : PyDict K V) : Nat :=
  d.length

/-- Python `d.update(u)`: shallow key-wise overwrite of `d` by the
entries of `u`, in order. -/
def update (d u : PyDict K V) : PyDict K V :=
  u.foldl (fun acc kv => insert acc kv.1 kv.2) d

/-- The keys of a dict, in order. -/
def keys (d : PyDict K V) : List K :=
  d.map Prod.fst

theorem lookup_append (d e : PyDict K V) (k : K) :
    lookup (d ++ e) k =
      match lookup d k with
      | some v => some v
      | none => lookup e k := by
  induction d with
  | nil => simp [lookup]
  | cons kv rest ih =>
      by_cases h : k = kv.1
      · simp [lookup, h]
      · simp [lookup, h, ih]

theorem lookup_map_replace (d : PyDict K V) (k : K) (v : V) (k' : K)
    (h : k' ≠ k) :
    lookup (d.map (fun kv => if kv.1 = k then (k, v) else kv)) k' =
      lookup d k' := by
  induction d with
  | nil => simp [lookup]
  | cons kv rest ih =>
      by_cases hk : kv.1 = k
      · simp [lookup, hk, h, ih]
      · simp [lookup, hk, ih]

theorem lookup_map_replace_self (d : PyDict K V) (k : K) (v : V)
    (h : mem d k = true) :
    lookup (d.map (fun kv => if kv.1 = k then (k, v) else kv)) k =
      some v := by
  induction d with
  | nil => simp [mem, lookup] at h
  | cons kv rest ih =>
      by_cases hk : kv.1 = k
      · simp [lookup, hk]
      · have hne : ¬ k = kv.1 := fun hh => hk hh.symm
        have hmem : mem rest k = true := by
          simpa [mem, lookup, hne] using h
        simp [lookup, hk, hne, ih hmem]

theorem lookup_insert_self (d : PyDict K V) (k : K) (v : V) :
    lookup (insert d k v) k = some v := by
  unfold insert
  by_cases h : mem d k = true
  · simp [h, lookup_map_replace_self d k v h]
  · have hnone : lookup d k = none := by
      unfold mem at h
      cases hl : lookup d k with
      | none => rfl
      | some w => rw [hl] at h; simp at h
    simp [h, lookup_append, hnone, lookup]

theorem lookup_insert_ne (d : PyDict K V) (k : K) (v : V) (k' : K)
    (h : k' ≠ k) :
    lookup (insert d k v) k' = lookup d k' := by
  unfold insert
  by_cases hm : mem d k = true
  · simp [hm, lookup_map_replace d k v k' h]
  · simp [hm, lookup_append]
    cases hl : lookup d k' with
    | none => simp [lookup, h]
    | some w => simp

theorem lookup_erase_self (d : PyDict K V) (k : K) :
    lookup (erase d k) k = none := by
  induction d with
  | nil => rfl
  | cons kv rest ih =>
      by_cases h : kv.1 = k
      · simpa [erase, h] using ih
      · have hne : ¬ k = kv.1 := fun hh => h hh.symm
        simpa [erase, h, lookup, hne] using ih

theorem mem_erase_self (d : PyDict K V) (k : K) :
    mem (erase d k) k = false := by
  unfold mem
  rw [lookup_erase_self]
  rfl

theorem lookup_eq_none_of_not_mem_keys (u : PyDict K V) (k : K)
    (h : k ∉ keys u) :
    lookup u k = none := by
  induction u with
  | nil => rfl
  | cons kv rest ih =>
      have h1 : ¬ k = kv.1 := by
        intro hk
        exact h (by simp [keys, hk])
      have h2 : k ∉ keys rest := by
        intro hk
        exact h (by simp [keys] at hk ⊢; right; exact hk)
      simp [lookup, h1, ih h2]

theorem lookup_update (d u : PyDict K V) (k : K)
    (h : (keys u).Nodup) :
    lookup (update d u) k = Option.or (lookup u k) (lookup d k) := by
  induction u generalizing d with
  | nil => simp [update, lookup]
  | cons kv rest ih =>
      have hcons : keys (kv :: rest) = kv.1 :: keys rest := rfl
      rw [hcons] at h
      have hnotin : kv.1 ∉ keys rest := (List.nodup_cons.mp h).1
      have hnodup : (keys rest).Nodup := (List.nodup_cons.mp h).2
      have hstep : update d (kv :: rest) = update (insert d kv.1 kv.2) rest := by
        simp [update]
      rw [hstep, ih (insert d kv.1 kv.2) hnodup]
      by_cases hk : k = kv.1
      · have hnone : lookup rest kv.1 = none :=
          lookup_eq_none_of_not_mem_keys rest kv.1 hnotin
        rw [hk]
        simp [lookup, hnone, lookup_insert_self, Option.or]
      · simp [lookup, hk, lookup_insert_ne d kv.1 kv.2 k hk]

end PyDict

/-- Metadata dicts as stored in `self.metadata[id]` and passed as
filters: Python `Dict[str, Any]`. -/
abbrev Meta := PyDict String Value

/-- The in-memory state of `VectorDBConnection`
(`src/connections/vectordb_connection.py`): the configured dimension,
the hnswlib index (its stored labelled vectors and its set of
soft-deleted labels), and the `self.metadata` dict from id to
metadata. -/
structure VectorDBConnection where
  dimension : Nat
  indexItems : List (Nat × List Rat)
  deletedIds : List Nat
  metadata : PyDict Nat Meta
deriving DecidableEq

/-- Modelled from the spec: the external hnswlib `Index.add_items`
call.  The repository code contains no dimension check of its own; the
spec states that a vector whose length differs from the configured
dimension makes the underlying index call fail (`"Fails with
StoreError wrapping any underlying index or persistence failure"`,
`"dimension mismatches ... must be rejected, not silently
truncated/padded"`).  On success the labelled vector is recorded in
the index. -/
def indexAddItems (db : VectorDBConnection) (v : List Rat) (label : Nat) :
    Except String VectorDBConnection :=
  if v.length = db.dimension then
    Except.ok { db with indexItems := db.indexItems ++ [(label, v)] }
  else
    Except.error "wrong dimensionality"

/-- Modelled from the spec: the external hnswlib `Index.mark_deleted`
call, the soft delete of a label. -/
def indexMarkDeleted (db : VectorDBConnection) (label : Nat) :
    VectorDBConnection :=
  { db with deletedIds := db.deletedIds ++ [label] }

/-- `add_item` (vectordb_connection.py, lines 192-199):
`idx = len(self.metadata)`, insert the vector into the index under
label `idx`, set `self.metadata[idx] = metadata`, persist, return
`idx`.  Any exception is wrapped in `VectorDBError("Failed to add
item: ...")`; on an index failure the metadata table was not yet
touched, which the `Except.error` result (carrying no state) models. -/
def add_item (db : VectorDBConnection) (vector : List Rat) (md : Meta) :
    Except String (VectorDBConnection × Nat) :=
  let idx := PyDict.size db.metadata
  match indexAddItems db vector idx with
  | Except.error e => Except.error ("Failed to add item: " ++ e)
  | Except.ok db1 =>
      Except.ok ({ db1 with metadata := PyDict.insert db1.metadata idx md }, idx)

/-- Modelled from the spec: the external hnswlib `Index.knn_query`
call.  The ANN graph search itself is outside the repository; its
output — the k nearest labels with their cosine distances, nearest
first — is taken here as the parameter `candidates`.  A query vector
of the wrong length makes hnswlib raise, which the spec records as
`"Fails with StoreError if the underlying index query fails (e.g.,
dimension mismatch)"`. -/
def knn_query (db : VectorDBConnection) (q : List Rat)
    (candidates : List (Nat × Rat)) : Except String (List (Nat × Rat)) :=
  if q.length = db.dimension then Except.ok candidates
  else Except.error "wrong dimensionality"

/-- One iteration of the result loop of `search`
(vectordb_connection.py, lines 228-240) for the candidate `(idx,
dist)`: skip it silently when `idx` is not in `self.metadata`; copy
its metadata; when `filters` is truthy (present and non-empty) keep
the candidate only if every filter key is present in the copy with an
exactly equal value; then set `item['id'] = int(idx)` and
`item['similarity'] = float(1 - dist)`.  (For an empty filters dict
`all` over no pairs is `true`, so the `match` below also reproduces
Python's falsy `if filters:` for `some []`.) -/
def searchStep (metadata : PyDict Nat Meta) (filters : Option Meta)
    (c : Nat × Rat) : Option Meta :=
  match PyDict.lookup metadata c.1 with
  | none => none
  | some item0 =>
      let keep : Bool :=
        match filters with
        | none => true
        | some f => f.all (fun kv => decide (PyDict.lookup item0 kv.1 = some kv.2))
      if keep then
        some (PyDict.insert (PyDict.insert item0 "id" (Value.int c.1))
          "similarity" (Value.rat (1 - c.2)))
      else none

/-- The result list built by `search` from the candidates returned by
`knn_query`, in candidate order. -/
def searchResults (metadata : PyDict Nat Meta) (filters : Option Meta)
    (candidates : List (Nat × Rat)) : List Meta :=
  candidates.filterMap (searchStep metadata filters)

/-- `search` (vectordb_connection.py, lines 201-244): query the index
for the nearest candidates, then run the filter/augment loop.  Any
exception is wrapped in `VectorDBError("Search failed: ...")`. -/
def search (db : VectorDBConnection) (q : List Rat)
    (filters : Option Meta) (candidates : List (Nat × Rat)) :
    Except String (List Meta) :=
  match knn_query db q candidates with
  | Except.error e => Except.error ("Search failed: " ++ e)
  | Except.ok cs => Except.ok (searchResults db.metadata filters cs)

/-- The metadata-table part of `update_item`
(vectordb_connection.py, lines 280-281): when an update dict is
supplied, `self.metadata[id].update(metadata)` merges it shallowly
into the stored dict. -/
def updateMeta (t : PyDict Nat Meta) (id : Nat) (md : Option Meta) :
    PyDict Nat Meta :=
  match md with
  | none => t
  | some m =>
      match PyDict.lookup t id with
      | none => t
      | some old => PyDict.insert t id (PyDict.update old m)

/-- `update_item` (vectordb_connection.py, lines 246-285): raise
`"Item {id} not found"` (wrapped as `"Update failed: ..."`) when the
id is absent — this check precedes every mutation; otherwise, when a
vector is supplied, mark the old label deleted in the index and
re-insert the new vector under the same label (which fails on a
dimension mismatch); when a metadata dict is supplied, merge it into
the stored dict; persist. -/
def update_item (db : VectorDBConnection) (id : Nat)
    (vector : Option (List Rat)) (md : Option Meta) :
    Except String VectorDBConnection :=
  if PyDict.mem db.metadata id then
    match vector with
    | some v =>
        match indexAddItems (indexMarkDeleted db id) v id with
        | Except.error e => Except.error ("Update failed: " ++ e)
        | Except.ok db1 =>
            Except.ok { db1 with metadata := updateMeta db1.metadata id md }
    | none => Except.ok { db with metadata := updateMeta db.metadata id md }
  else
    Except.error ("Update failed: Item " ++ toString id ++ " not found")

/-- `delete_item` (vectordb_connection.py, lines 287-305): when the id
is in `self.metadata`, mark it deleted in the index, delete it from
the table and persist; otherwise do nothing. -/
def delete_item (db : VectorDBConnection) (id : Nat) : VectorDBConnection :=
  if PyDict.mem db.metadata id then
    { db with
      deletedIds := db.deletedIds ++ [id],
      metadata := PyDict.erase db.metadata id }
  else db

/-- `get_item` (vectordb_connection.py, lines 307-334): raise `"Item
{id} not found"` (wrapped as `"Failed to get item: ..."`) when the id
is absent; otherwise return `{'id': id, **self.metadata[id]}` — the
dict that starts from `{'id': id}` and then spreads the stored
metadata over it, so a stored `'id'` key overrides the lookup id. -/
def get_item (db : VectorDBConnection) (id : Nat) : Except String Meta :=
  match PyDict.lookup db.metadata id with
  | none => Except.error ("Failed to get item: Item " ++ toString id ++ " not found")
  | some md => Except.ok (PyDict.update [("id", Value.int id)] md)

/-! Helper lemmas about the search result loop. -/

theorem searchStep_eq_some (t : PyDict Nat Meta) (f : Option Meta)
    (c : Nat × Rat) (r : Meta) (h : searchStep t f c = some r) :
    ∃ item, PyDict.lookup t c.1 = some item ∧
      r = PyDict.insert (PyDict.insert item "id" (Value.int c.1))
            "similarity" (Value.rat (1 - c.2)) ∧
      ∀ fl, f = some fl → ∀ kv ∈ fl, PyDict.lookup item kv.1 = some kv.2 := by
  unfold searchStep at h
  cases hl : PyDict.lookup t c.1 with
  | none => rw [hl] at h; exact absurd h (by simp)
  | some item =>
      rw [hl] at h
      simp only at h
      split at h
      · refine ⟨item, rfl, ?_, ?_⟩
        · injection h with h1
          exact h1.symm
        · intro fl hfl kv hkv
          rename_i hkeep
          rw [hfl] at hkeep
          simp only at hkeep
          have := List.all_eq_true.mp hkeep kv hkv
          exact of_decide_eq_true this
      · exact absurd h (by simp)

theorem searchStep_of_pass (t : PyDict Nat Meta) (f : Meta) (c : Nat × Rat)
    (item : Meta) (hl : PyDict.lookup t c.1 = some item)
    (hall : ∀ kv ∈ f, PyDict.lookup item kv.1 = some kv.2) :
    searchStep t (some f) c =
      some (PyDict.insert (PyDict.insert item "id" (Value.int c.1))
        "similarity" (Value.rat (1 - c.2))) := by
  unfold searchStep
  rw [hl]
  simp only
  rw [if_pos]
  exact List.all_eq_true.mpr (fun kv hkv => decide_eq_true (hall kv hkv))

theorem searchStep_lookup_id (t : PyDict Nat Meta) (f : Option Meta)
    (c : Nat × Rat) (r : Meta) (h : searchStep t f c = some r) :
    PyDict.lookup r "id" = some (Value.int c.1) := by
  obtain ⟨item, _, hr, _⟩ := searchStep_eq_some t f c r h
  rw [hr]
  rw [PyDict.lookup_insert_ne _ _ _ _ (by decide)]
  exact PyDict.lookup_insert_self _ _ _

theorem searchStep_lookup_sim (t : PyDict Nat Meta) (f : Option Meta)
    (c : Nat × Rat) (r : Meta) (h : searchStep t f c = some r) :
    PyDict.lookup r "similarity" = some (Value.rat (1 - c.2)) := by
  obtain ⟨item, _, hr, _⟩ := searchStep_eq_some t f c r h
  rw [hr]
  exact PyDict.lookup_insert_self _ _ _

theorem filterMap_eq_map_filter {α β : Type} (f : α → Option β) (dflt : β)
    (l : List α) :
    l.filterMap f =
      (l.filter (fun a => (f a).isSome)).map (fun a => (f a).getD dflt) := by
  induction l with
  | nil => rfl
  | cons a l ih =>
      cases hfa : f a with
      | none => simp [List.filterMap_cons, List.filter_cons, hfa, ih]
      | some b => simp [List.filterMap_cons, List.filter_cons, hfa, ih]

/-! Concrete stores used by the closed theorems below. -/

/-- A fresh store of dimension 1 (the state after `_initialize_db` on
an empty path). -/
def emptyStore : VectorDBConnection :=
  { dimension := 1, indexItems := [], deletedIds := [], metadata := [] }

def c1m0 : Meta := [("tag", Value.str "a")]

def c1m1 : Meta := [("tag", Value.str "b")]

def c1m2 : Meta := [("tag", Value.str "c")]

/-- The store after adding `c1m0`. -/
def c1db1 : VectorDBConnection :=
  { dimension := 1, indexItems := [(0, [0])], deletedIds := [],
    metadata := [(0, c1m0)] }

/-- The store after also adding `c1m1`. -/
def c1db2 : VectorDBConnection :=
  { dimension := 1, indexItems := [(0, [0]), (1, [0])], deletedIds := [],
    metadata := [(0, c1m0), (1, c1m1)] }

/-- The store after then deleting id 0. -/
def c1db3 : VectorDBConnection :=
  { dimension := 1, indexItems := [(0, [0]), (1, [0])], deletedIds := [0],
    metadata := [(1, c1m1)] }

/-- The store after the third add: id 1 is reassigned and its metadata
overwritten. -/
def c1db4 : VectorDBConnection :=
  { dimension := 1, indexItems := [(0, [0]), (1, [0]), (1, [0])],
    deletedIds := [0], metadata := [(1, c1m2)] }

/-- C1: id assignment is claimed never to collide with live entries;
the code (`idx = len(self.metadata)`) violates this.  After adding two
items (ids 0 and 1) and deleting id 0, the table still holds the live
id 1, yet the next `add_item` is assigned id 1 again and overwrites
the live entry's metadata. -/
theorem C1_id_reuse_collides_with_live_entry :
    add_item emptyStore [0] c1m0 = Except.ok (c1db1, 0) ∧
    add_item c1db1 [0] c1m1 = Except.ok (c1db2, 1) ∧
    delete_item c1db2 0 = c1db3 ∧
    PyDict.mem c1db3.metadata 1 = true ∧
    add_item c1db3 [0] c1m2 = Except.ok (c1db4, 1) ∧
    PyDict.lookup c1db4.metadata 1 = some c1m2 ∧
    c1m2 ≠ c1m1 := by
  decide

/-- C2: a successful `add_item` returns the id `len(self.metadata)`
computed before the insertion, and afterwards that id maps to the
supplied metadata. -/
theorem C2_add_item_assigns_current_count (db : VectorDBConnection)
    (v : List Rat) (m : Meta) (hdim : v.length = db.dimension) :
    ∃ db1, add_item db v m = Except.ok (db1, PyDict.size db.metadata) ∧
      PyDict.lookup db1.metadata (PyDict.size db.metadata) = some m := by
  refine ⟨{ db with
      indexItems := db.indexItems ++ [(PyDict.size db.metadata, v)],
      metadata := PyDict.insert db.metadata (PyDict.size db.metadata) m },
    ?_, ?_⟩
  · simp [add_item, indexAddItems, hdim]
  · exact PyDict.lookup_insert_self _ _ _

/-- Closed instance of `C2_add_item_assigns_current_count`: a store of
dimension 1 with one entry assigns id 1 to the next add. -/
theorem C2_add_item_assigns_current_count_witness :
    ∃ db1, add_item c1db1 [0] c1m1 = Except.ok (db1, PyDict.size c1db1.metadata) ∧
      PyDict.lookup db1.metadata (PyDict.size c1db1.metadata) = some c1m1 :=
  C2_add_item_assigns_current_count c1db1 [0] c1m1 (by decide)

/-- C4: `add_item` and `search` with a vector whose length differs
from the configured dimension fail with the wrapped index dimension
error; the error result carries no successor state, so no entry is
added and nothing is truncated or padded. -/
theorem C4_dimension_mismatch_rejected (db : VectorDBConnection)
    (v : List Rat) (m : Meta) (q : List Rat) (f : Option Meta)
    (cs : List (Nat × Rat))
    (hv : v.length ≠ db.dimension) (hq : q.length ≠ db.dimension) :
    add_item db v m = Except.error "Failed to add item: wrong dimensionality" ∧
    search db q f cs = Except.error "Search failed: wrong dimensionality" := by
  constructor
  · simp [add_item, indexAddItems, hv]
  · simp [search, knn_query, hq]

/-- Closed instance of `C4_dimension_mismatch_rejected`: dimension 8
with a length-7 add vector and a length-9 query vector. -/
theorem C4_dimension_mismatch_rejected_witness :
    add_item { dimension := 8, indexItems := [], deletedIds := [], metadata := [] }
        [0, 0, 0, 0, 0, 0, 0] c1m0 =
      Except.error "Failed to add item: wrong dimensionality" ∧
    search { dimension := 8, indexItems := [], deletedIds := [], metadata := [] }
        [0, 0, 0, 0, 0, 0, 0, 0, 0] none [] =
      Except.error "Search failed: wrong dimensionality" :=
  C4_dimension_mismatch_rejected _ _ c1m0 _ none [] (by decide) (by decide)

/-- C7: `delete_item` on an id absent from the metadata table is a
no-op (and raises nothing — the function is total), and deleting the
same id twice equals deleting it once. -/
theorem C7_delete_idempotent (db : VectorDBConnection) (id : Nat) :
    (PyDict.mem db.metadata id = false → delete_item db id = db) ∧
    delete_item (delete_item db id) id = delete_item db id := by
  constructor
  · intro h
    unfold delete_item
    rw [h]
    rfl
  · by_cases h : PyDict.mem db.metadata id = true
    · have h1 : delete_item db id =
          { db with deletedIds := db.deletedIds ++ [id],
                    metadata := PyDict.erase db.metadata id } := by
        unfold delete_item
        rw [h]
        rfl
      rw [h1]
      unfold delete_item
      rw [PyDict.mem_erase_self]
      rfl
    · have h0 : PyDict.mem db.metadata id = false := by
        cases hm : PyDict.mem db.metadata id with
        | true => exact absurd hm h
        | false => rfl
      have h1 : delete_item db id = db := by
        unfold delete_item
        rw [h0]
        rfl
      rw [h1, h1]

/-- Closed instance of `C7_delete_idempotent`: deleting the absent id
5 leaves a one-entry store unchanged, and double deletion of id 0
equals single deletion. -/
theorem C7_delete_idempotent_witness :
    delete_item c1db1 5 = c1db1 ∧
    delete_item (delete_item c1db1 0) 0 = delete_item c1db1 0 :=
  ⟨(C7_delete_idempotent c1db1 5).1 (by decide), (C7_delete_idempotent c1db1 0).2⟩

/-- C9: `get_item` and `update_item` on an id absent from the metadata
table fail with the wrapped not-found error.  The absence check in
`update_item` precedes every mutation and `get_item` never mutates, so
the failed calls leave the store unchanged (the error results carry no
successor state). -/
theorem C9_not_found_signaling (db : VectorDBConnection) (id : Nat)
    (v : Option (List Rat)) (m : Option Meta)
    (h : PyDict.mem db.metadata id = false) :
    get_item db id =
      Except.error ("Failed to get item: Item " ++ toString id ++ " not found") ∧
    update_item db id v m =
      Except.error ("Update failed: Item " ++ toString id ++ " not found") := by
  have hnone : PyDict.lookup db.metadata id = none := by
    unfold PyDict.mem at h
    cases hl : PyDict.lookup db.metadata id with
    | none => rfl
    | some w => rw [hl] at h; simp at h
  constructor
  · unfold get_item
    rw [hnone]
  · unfold update_item
    rw [h]
    rfl

/-- Closed instance of `C9_not_found_signaling` at id 3 on the empty
store. -/
theorem C9_not_found_signaling_witness :
    get_item emptyStore 3 =
      Except.error ("Failed to get item: Item " ++ toString 3 ++ " not found") ∧
    update_item emptyStore 3 none none =
      Except.error ("Update failed: Item " ++ toString 3 ++ " not found") :=
  C9_not_found_signaling emptyStore 3 none none (by decide)

def c3m : Meta := [("id", Value.str "x")]

/-- The store after adding `c3m` to the empty dimension-1 store. -/
def c3db1 : VectorDBConnection :=
  { dimension := 1, indexItems := [(0, [0])], deletedIds := [],
    metadata := [(0, c3m)] }

/-- C3 fails as stated: adding metadata that itself contains an `'id'`
key and reading it back does not yield the metadata plus the assigned
id.  `get_item` builds `{'id': id, **metadata}`, so the stored `'id'`
value `"x"` overrides the assigned id 0. -/
theorem C3_roundtrip_counterexample :
    add_item emptyStore [0] c3m = Except.ok (c3db1, 0) ∧
    get_item c3db1 0 = Except.ok c3m ∧
    ¬ PyDict.lookup c3m "id" = some (Value.int 0) := by
  decide

/-- C3 amended: `add_item` then `get_item` on the returned id yields
the input metadata augmented with the assigned id under the `'id'`
key, except that a key already present in the input metadata — in
particular its own `'id'` key — keeps the input's value, overriding
the assigned id. -/
theorem C3_roundtrip_amended (db : VectorDBConnection) (v : List Rat)
    (m : Meta) (k : String) (hdim : v.length = db.dimension)
    (hnodup : (PyDict.keys m).Nodup) :
    ∃ db1,
      add_item db v m = Except.ok (db1, PyDict.size db.metadata) ∧
      get_item db1 (PyDict.size db.metadata) =
        Except.ok (PyDict.update [("id", Value.int (PyDict.size db.metadata))] m) ∧
      PyDict.lookup (PyDict.update [("id", Value.int (PyDict.size db.metadata))] m) k =
        Option.or (PyDict.lookup m k)
          (if k = "id" then some (Value.int (PyDict.size db.metadata))
           else none) := by
  refine ⟨{ db with
      indexItems := db.indexItems ++ [(PyDict.size db.metadata, v)],
      metadata := PyDict.insert db.metadata (PyDict.size db.metadata) m },
    ?_, ?_, ?_⟩
  · simp [add_item, indexAddItems, hdim]
  · unfold get_item
    rw [PyDict.lookup_insert_self]
  · rw [PyDict.lookup_update _ _ _ hnodup]
    simp [PyDict.lookup]

/-- Closed instance of `C3_roundtrip_amended` at the counterexample
input: the round-trip value at key `'id'` is the input's own value. -/
theorem C3_roundtrip_amended_witness :
    ∃ db1,
      add_item emptyStore [0] c3m = Except.ok (db1, PyDict.size emptyStore.metadata) ∧
      get_item db1 (PyDict.size emptyStore.metadata) =
        Except.ok (PyDict.update [("id", Value.int (PyDict.size emptyStore.metadata))] c3m) ∧
      PyDict.lookup
          (PyDict.update [("id", Value.int (PyDict.size emptyStore.metadata))] c3m) "id" =
        Option.or (PyDict.lookup c3m "id")
          (if "id" = "id" then some (Value.int (PyDict.size emptyStore.metadata))
           else none) :=
  C3_roundtrip_amended emptyStore [0] c3m "id" (by decide) (by decide)

/-- C8: `update_item` with only a metadata dict merges it shallowly
into the stored dict for that id: every key of the update takes the
updated value and every other key keeps its previous value. -/
theorem C8_update_merge_preserves_other_fields (db : VectorDBConnection)
    (id : Nat) (old m : Meta) (k : String)
    (hold : PyDict.lookup db.metadata id = some old)
    (hnodup : (PyDict.keys m).Nodup) :
    ∃ db1, update_item db id none (some m) = Except.ok db1 ∧
      PyDict.lookup db1.metadata id = some (PyDict.update old m) ∧
      PyDict.lookup (PyDict.update old m) k =
        Option.or (PyDict.lookup m k) (PyDict.lookup old k) := by
  have hmem : PyDict.mem db.metadata id = true := by
    unfold PyDict.mem
    rw [hold]
    rfl
  refine ⟨{ db with
      metadata := PyDict.insert db.metadata id (PyDict.update old m) }, ?_, ?_, ?_⟩
  · simp [update_item, hmem, updateMeta, hold]
  · exact PyDict.lookup_insert_self _ _ _
  · exact PyDict.lookup_update old m k hnodup

def c8old : Meta := [("author", Value.str "A"), ("title", Value.str "X")]

def c8upd : Meta := [("author", Value.str "B")]

/-- The store holding `c8old` under id 0. -/
def c8db : VectorDBConnection :=
  { dimension := 1, indexItems := [(0, [0])], deletedIds := [],
    metadata := [(0, c8old)] }

/-- Closed instance of `C8_update_merge_preserves_other_fields`: the
spec's example, updating only `author` keeps `title`. -/
theorem C8_update_merge_preserves_other_fields_witness :
    ∃ db1, update_item c8db 0 none (some c8upd) = Except.ok db1 ∧
      PyDict.lookup db1.metadata 0 = some (PyDict.update c8old c8upd) ∧
      PyDict.lookup (PyDict.update c8old c8upd) "title" =
        Option.or (PyDict.lookup c8upd "title") (PyDict.lookup c8old "title") :=
  C8_update_merge_preserves_other_fields c8db 0 c8old c8upd "title"
    (by decide) (by decide)

/-- C10: `get_item` spreads the stored metadata after the `'id'` key,
so a stored `'id'` value wins over the lookup id; `search` assigns the
result's `'id'` from the index label after copying the metadata, so
every search result's `'id'` is the label of the candidate it was
built from. -/
theorem C10_id_key_semantics (db : VectorDBConnection) (id : Nat)
    (md : Meta) (v : Value) (t : PyDict Nat Meta) (f : Option Meta)
    (cs : List (Nat × Rat)) (r : Meta)
    (hmd : PyDict.lookup db.metadata id = some md)
    (hv : PyDict.lookup md "id" = some v)
    (hnodup : (PyDict.keys md).Nodup)
    (hr : r ∈ searchResults t f cs) :
    get_item db id = Except.ok (PyDict.update [("id", Value.int id)] md) ∧
    PyDict.lookup (PyDict.update [("id", Value.int id)] md) "id" = some v ∧
    ∃ c ∈ cs, PyDict.lookup r "id" = some (Value.int c.1) := by
  refine ⟨?_, ?_, ?_⟩
  · unfold get_item
    rw [hmd]
  · rw [PyDict.lookup_update _ _ _ hnodup, hv]
    exact Option.or_some
  · unfold searchResults at hr
    obtain ⟨c, hcs, hstep⟩ := List.mem_filterMap.mp hr
    exact ⟨c, hcs, searchStep_lookup_id t f c r hstep⟩

/-- Closed instance of `C10_id_key_semantics`: getting id 0 whose
stored metadata carries `'id': "x"` returns `"x"`, while the search
result built from candidate label 7 carries `'id': 7`. -/
theorem C10_id_key_semantics_witness :
    get_item c3db1 0 = Except.ok (PyDict.update [("id", Value.int 0)] c3m) ∧
    PyDict.lookup (PyDict.update [("id", Value.int 0)] c3m) "id" =
      some (Value.str "x") ∧
    ∃ c ∈ [((7 : Nat), (0 : Rat))],
      PyDict.lookup [("id", Value.int 7), ("similarity", Value.rat (1 - 0))] "id" =
        some (Value.int c.1) :=
  C10_id_key_semantics c3db1 0 c3m (Value.str "x") [(7, [])] none
    [(7, 0)] [("id", Value.int 7), ("similarity", Value.rat (1 - 0))]
    (by decide) (by decide) (by decide)
    (by
      have h : searchResults [(7, [])] none [(7, 0)] =
          [[("id", Value.int 7), ("similarity", Value.rat (1 - 0))]] := rfl
      rw [h]
      exact List.mem_singleton_self _)

/-- C5: with a non-empty filters dict, a candidate id appears among
the search results (carrying that id and its similarity) exactly when
the id is present in the metadata table and every filter key is
present in its metadata with an exactly equal value; deleted ids and
filter-failing candidates are silently skipped. -/
theorem C5_filter_exactness (t : PyDict Nat Meta) (f : Meta)
    (cs : List (Nat × Rat)) (c : Nat × Rat)
    (hc : c ∈ cs) (_hf : f ≠ []) :
    (∃ r, r ∈ searchResults t (some f) cs ∧
        PyDict.lookup r "id" = some (Value.int c.1) ∧
        PyDict.lookup r "similarity" = some (Value.rat (1 - c.2))) ↔
    (∃ item, PyDict.lookup t c.1 = some item ∧
        ∀ kv ∈ f, PyDict.lookup item kv.1 = some kv.2) := by
  constructor
  · rintro ⟨r, hrmem, hid, hsim⟩
    unfold searchResults at hrmem
    obtain ⟨c', hc', hstep⟩ := List.mem_filterMap.mp hrmem
    obtain ⟨item, hitem, hreq, hall⟩ := searchStep_eq_some t (some f) c' r hstep
    have hid' : PyDict.lookup r "id" = some (Value.int c'.1) :=
      searchStep_lookup_id t (some f) c' r hstep
    have hcc : c.1 = c'.1 := by
      have heq := hid.symm.trans hid'
      simp only [Option.some.injEq, Value.int.injEq, Nat.cast_inj] at heq
      exact heq
    refine ⟨item, ?_, hall f rfl⟩
    rw [hcc]
    exact hitem
  · rintro ⟨item, hitem, hall⟩
    have hstep := searchStep_of_pass t f c item hitem hall
    refine ⟨_, ?_, searchStep_lookup_id t (some f) c _ hstep,
      searchStep_lookup_sim t (some f) c _ hstep⟩
    unfold searchResults
    exact List.mem_filterMap.mpr ⟨c, hc, hstep⟩

def c5table : PyDict Nat Meta :=
  [(0, [("type", Value.str "job")]), (1, [("type", Value.str "staking")])]

def c5filters : Meta := [("type", Value.str "job")]

/-- Closed instance of `C5_filter_exactness` for the candidate
`(0, 0)` against the job/staking table with the `type = "job"`
filter. -/
theorem C5_filter_exactness_witness :
    (∃ r, r ∈ searchResults c5table (some c5filters) [(0, 0), (1, 1)] ∧
        PyDict.lookup r "id" = some (Value.int 0) ∧
        PyDict.lookup r "similarity" = some (Value.rat (1 - 0))) ↔
    (∃ item, PyDict.lookup c5table 0 = some item ∧
        ∀ kv ∈ c5filters, PyDict.lookup item kv.1 = some kv.2) :=
  C5_filter_exactness c5table c5filters [(0, 0), (1, 1)] (0, 0)
    (by decide) (by decide)

/-- C6: the search results are the candidate list filtered in place —
a subsequence in the index's nearest-first order, each survivor mapped
to its augmented metadata — and when the candidate distances are
non-decreasing the similarity values of the results are
non-increasing; no re-sorting occurs after filtering. -/
theorem C6_search_preserves_order (t : PyDict Nat Meta) (f : Option Meta)
    (cs : List (Nat × Rat))
    (hsorted : List.Pairwise (fun a b : Nat × Rat => a.2 ≤ b.2) cs) :
    searchResults t f cs =
      (cs.filter (fun c => (searchStep t f c).isSome)).map
        (fun c => (searchStep t f c).getD []) ∧
    (cs.filter (fun c => (searchStep t f c).isSome)).Sublist cs ∧
    List.Pairwise (fun r s : Meta =>
      ∀ qr qs : Rat,
        PyDict.lookup r "similarity" = some (Value.rat qr) →
        PyDict.lookup s "similarity" = some (Value.rat qs) → qs ≤ qr)
      (searchResults t f cs) := by
  refine ⟨?_, List.filter_sublist cs, ?_⟩
  · unfold searchResults
    exact filterMap_eq_map_filter _ [] cs
  · unfold searchResults
    rw [List.pairwise_filterMap]
    refine List.Pairwise.imp ?_ hsorted
    intro a a' hle b hb b' hb' qr qs hqr hqs
    have hsb := searchStep_lookup_sim t f a b (Option.mem_def.mp hb)
    have hsb' := searchStep_lookup_sim t f a' b' (Option.mem_def.mp hb')
    have h1 : qr = 1 - a.2 := by
      have heq := hqr.symm.trans hsb
      simp only [Option.some.injEq, Value.rat.injEq] at heq
      exact heq
    have h2 : qs = 1 - a'.2 := by
      have heq := hqs.symm.trans hsb'
      simp only [Option.some.injEq, Value.rat.injEq] at heq
      exact heq
    rw [h1, h2]
    linarith

/-- Closed instance of `C6_search_preserves_order` on the job/staking
table with no filters and candidates at distances 0 and 1. -/
theorem C6_search_preserves_order_witness :
    searchResults c5table none [(0, 0), (5, 1)] =
      (([(0, 0), (5, 1)] : List (Nat × Rat)).filter
          (fun c => (searchStep c5table none c).isSome)).map
        (fun c => (searchStep c5table none c).getD []) ∧
    (([(0, 0), (5, 1)] : List (Nat × Rat)).filter
        (fun c => (searchStep c5table none c).isSome)).Sublist
      [(0, 0), (5, 1)] ∧
    List.Pairwise (fun r s : Meta =>
      ∀ qr qs : Rat,
        PyDict.lookup r "similarity" = some (Value.rat qr) →
        PyDict.lookup s "similarity" = some (Value.rat qs) → qs ≤ qr)
      (searchResults c5table none [(0, 0), (5, 1)]) :=
  C6_search_preserves_order c5table none [(0, 0), (5, 1)] (by decide)

end AnonSkill
